import Mathlib

/-!
Shallow embedding of `sknn/mlp.py` (scikit-neuralnetwork): the `Layer`
descriptor, the `BaseMLP` estimator construction, layer building with
scaled random-initialization ranges, the training loop, persistence
(`__getstate__` / `__setstate__`), and prediction.

Numeric conventions:
* Python floats are idealized as rationals (`ℚ`).
* Every initialization range (`irange`) in the source is nonnegative and is
  built from square roots (`lim = sqrt(6)/sqrt(fan_in+fan_out)`).  To stay
  computable we represent every range by its SQUARE (names ending in `Sq`):
  squaring is injective on nonnegative reals, so equalities and
  disequalities of ranges are faithfully mirrored by their squares.
  Concretely `lim^2 = 6/(fan_in+fan_out)`, `(sqrt 2 * lim)^2 = 2 * lim^2`,
  `(4*lim)^2 = 16*lim^2`, and the Tanh branch `lim *= 1.1 * lim` produces
  the range `1.1*lim^2`, whose square is `(1.1 * lim^2)^2`.
* Backend objects (pylearn2 layer classes, the theano-compiled forward
  function, random weight draws) are external collaborators: the forward
  pass appears as an abstract function argument `F`, and fresh random
  weights as an abstract `initW` argument.  The compiled function `self.f`
  is fully determined by the `mlp` object it was compiled from, so the
  state records that mlp in the `f` slot.
* Fallible Python code (assert / raise) is modelled with `Except String`.
-/

namespace SknnMlp

abbrev Mat := List (List ℚ)
abbrev Vec := List ℚ

/-- Descriptor of one layer, mirroring `sknn.mlp.Layer.__init__`'s stored
attributes (mlp.py lines 115-123). -/
structure Layer where
  type : String
  name : Option String := none
  units : Option ℕ := none
  pieces : Option ℕ := none
  channels : Option ℕ := none
  kernelShape : Option (ℕ × ℕ) := none
  poolShape : Option (ℕ × ℕ) := none
  poolType : Option String := none
  dropout : Option ℚ := none
deriving DecidableEq

/-- The eight supported layer type strings (mlp.py lines 111-112). -/
def layerTypes : List String :=
  ["Rectifier", "Sigmoid", "Tanh", "Maxout", "Convolution",
   "Linear", "Softmax", "Gaussian"]

/-- `Layer.__init__` (mlp.py lines 48-123): raises `NotImplementedError`
for a type string outside the supported list, otherwise stores all
parameters. -/
def Layer.mkChecked (type : String) (name : Option String)
    (units pieces channels : Option ℕ)
    (kernelShape poolShape : Option (ℕ × ℕ)) (poolType : Option String)
    (dropout : Option ℚ) : Except String Layer :=
  if type ∈ layerTypes then
    Except.ok { type := type, name := name, units := units, pieces := pieces,
                channels := channels, kernelShape := kernelShape,
                poolShape := poolShape, poolType := poolType,
                dropout := dropout }
  else
    Except.error ("Layer type `" ++ type ++ "` is not implemented.")

/-- The `"%s_%i_%s" % (label, i, layer.type)` auto name
(mlp.py lines 229-230): label is `Hidden` for every index before the last
and `Output` for the last index of the constructor's layer list. -/
def autoLayerName (total i : ℕ) (t : String) : String :=
  (if i < total - 1 then "Hidden" else "Output") ++ "_" ++ toString i ++ "_" ++ t

/-- Name-assignment loop of `BaseMLP.__init__` (mlp.py lines 224-232),
recursing over the layer list while keeping the running index. -/
def assignNamesGo (total : ℕ) : ℕ → List Layer → List Layer
  | _, [] => []
  | i, l :: ls =>
    (if l.name = none then { l with name := some (autoLayerName total i l.type) } else l)
      :: assignNamesGo total (i + 1) ls

def assignNames (layers : List Layer) : List Layer :=
  assignNamesGo layers.length 0 layers

/-- Learning-rule objects built in `BaseMLP.__init__`
(mlp.py lines 259-273); `sgd` stores `None`. -/
inductive LearningRuleObj where
  | adaDelta
  | momentum (m : ℚ) (nesterov : Bool)
  | rmsProp
deriving DecidableEq

/-- The constructor's `dropout` argument is either a bool or a float
(mlp.py line 238). -/
inductive DropoutArg where
  | boolArg (b : Bool)
  | floatArg (q : ℚ)
deriving DecidableEq

/-- Python truthiness of the `dropout` argument, used by
`self.cost = "Dropout" if dropout else None` (mlp.py line 258). -/
def DropoutArg.truthy : DropoutArg → Bool
  | .boolArg b => b
  | .floatArg q => q != 0

/-- `self.dropout = dropout if type(dropout) is float else (0.5 if dropout
else 0.0)` (mlp.py line 238). -/
def DropoutArg.ratio : DropoutArg → ℚ
  | .floatArg q => q
  | .boolArg true => 1/2
  | .boolArg false => 0

/-- `self.cost` starts as the string `"Dropout"` or `None`
(mlp.py line 258) and is replaced by a `Dropout` cost object in
`_create_trainer` (mlp.py lines 298-301). -/
inductive CostConfig where
  | noneCost
  | dropoutName
  | dropoutCost (defaultProb defaultScale : ℚ)
      (probs scales : List (Option String × ℚ))
deriving DecidableEq

/-- A pylearn2 layer object as produced by `_create_hidden_layer` /
`_create_output_layer` (mlp.py lines 335-411), carrying the square of its
`irange` argument. -/
inductive BackendLayer where
  | rectifiedLinear (layerName : Option String) (dim : ℕ) (irangeSqVal : ℚ)
  | sigmoidLayer (layerName : Option String) (dim : ℕ) (irangeSqVal : ℚ)
  | tanhLayer (layerName : Option String) (dim : ℕ) (irangeSqVal : ℚ)
  | maxoutLayer (layerName : Option String) (numUnits numPieces : ℕ) (irangeSqVal : ℚ)
  | convRectifiedLinear (layerName : Option String) (outputChannels : ℕ)
      (kernelShape poolShape poolStride : ℕ × ℕ) (poolType : String)
      (irangeSqVal : ℚ)
  | linearLayer (layerName : Option String) (dim : ℕ) (irangeSqVal : ℚ)
  | linearGaussian (layerName : Option String) (initBeta minBeta maxBeta : ℚ)
      (dim : ℕ) (irangeSqVal : ℚ)
  | softmaxLayer (layerName : Option String) (nClasses : ℕ) (irangeSqVal : ℚ)
deriving DecidableEq

/-- The square of the `irange` each backend layer was constructed with. -/
def BackendLayer.irangeSq : BackendLayer → ℚ
  | .rectifiedLinear _ _ r => r
  | .sigmoidLayer _ _ r => r
  | .tanhLayer _ _ r => r
  | .maxoutLayer _ _ _ r => r
  | .convRectifiedLinear _ _ _ _ _ _ r => r
  | .linearLayer _ _ r => r
  | .linearGaussian _ _ _ _ _ r => r
  | .softmaxLayer _ _ r => r

/-- One layer of the assembled pylearn2 `mlp.MLP`: the constructed layer
object together with its current weight matrix and bias vector. -/
structure MlpLayerM where
  blayer : BackendLayer
  weights : Mat
  biases : Vec
deriving DecidableEq

/-- The assembled pylearn2 `mlp.MLP` object (mlp.py lines 436-440). -/
structure MlpM where
  layers : List MlpLayerM
  nvis : Option ℕ
  seed : Option ℕ
deriving DecidableEq

/-- Estimator state: the attributes set in `BaseMLP.__init__`
(mlp.py lines 223-258) that the verified claims touch.  The backend-only
handles `ds`, `vs`, `trainer` are not modelled; `f` records the mlp the
theano function was compiled from. -/
structure NNState where
  layers : List Layer
  randomState : Option ℕ
  learningRule : String
  learningRate : ℚ
  learningMomentum : ℚ
  dropout : ℚ
  batchSize : ℕ
  nIter : Option ℕ
  nStable : ℕ
  fStable : ℚ
  validSet : Option (Mat × Mat)
  validSize : ℚ
  verbose : Bool
  unitCounts : Option (List (Option ℕ))
  mlp : Option MlpM
  weights : Option (List (Mat × Vec))
  trainSet : Option (Mat × Mat)
  f : Option MlpM
  cost : CostConfig
  lrObj : Option LearningRuleObj
deriving DecidableEq

/-- Construction of the learning-rule object (mlp.py lines 259-273);
an unknown rule name raises `NotImplementedError`. -/
def mkLrObj (rule : String) (m : ℚ) : Except String (Option LearningRuleObj) :=
  if rule = "sgd" then Except.ok none
  else if rule = "adadelta" then Except.ok (some .adaDelta)
  else if rule = "momentum" then Except.ok (some (.momentum m false))
  else if rule = "nesterov" then Except.ok (some (.momentum m true))
  else if rule = "rmsprop" then Except.ok (some .rmsProp)
  else Except.error ("Learning rule type `" ++ rule ++ "` is not supported.")

/-- `BaseMLP.__init__` (mlp.py lines 207-275): assigns missing layer
names, stores the hyperparameters, initializes all runtime slots to
`None`, and fails on an unknown learning rule. -/
def baseInit (layers : List Layer) (randomState : Option ℕ)
    (learningRule : String) (learningRate learningMomentum : ℚ)
    (dropout : DropoutArg) (batchSize : ℕ) (nIter : Option ℕ)
    (nStable : ℕ) (fStable : ℚ) (validSet : Option (Mat × Mat))
    (validSize : ℚ) (verbose : Bool) : Except String NNState :=
  match mkLrObj learningRule learningMomentum with
  | Except.error e => Except.error e
  | Except.ok lrObj =>
    Except.ok {
      layers := assignNames layers
      randomState := randomState
      learningRule := learningRule
      learningRate := learningRate
      learningMomentum := learningMomentum
      dropout := dropout.ratio
      batchSize := batchSize
      nIter := nIter
      nStable := nStable
      fStable := fStable
      validSet := validSet
      validSize := validSize
      verbose := verbose
      unitCounts := none
      mlp := none
      weights := none
      trainSet := none
      f := none
      cost := if dropout.truthy then CostConfig.dropoutName else CostConfig.noneCost
      lrObj := lrObj }

/-- `getattr(layer, a) is None` for the attribute names used by
`_check_layer` (mlp.py lines 320-333). -/
def layerFieldIsNone (l : Layer) (a : String) : Bool :=
  if a = "name" then l.name.isNone
  else if a = "type" then false
  else if a = "units" then l.units.isNone
  else if a = "pieces" then l.pieces.isNone
  else if a = "channels" then l.channels.isNone
  else if a = "kernel_shape" then l.kernelShape.isNone
  else if a = "pool_shape" then l.poolShape.isNone
  else if a = "pool_type" then l.poolType.isNone
  else if a = "dropout" then l.dropout.isNone
  else true

/-- `_check_layer` (mlp.py lines 320-333): raises `ValueError` on the
first required attribute that is `None` (`name` and `type` are always
required); the unused-parameter branch only logs a warning and is not
modelled. -/
def checkLayer (l : Layer) (required : List String) : Except String Unit :=
  match (required ++ ["name", "type"]).find? (layerFieldIsNone l) with
  | some r =>
    Except.error ("Layer type `" ++ l.type ++ "` requires parameter `" ++ r ++ "`.")
  | none => Except.ok ()

/-- `_create_hidden_layer` (mlp.py lines 335-378).  The `getD` defaults
are only reached when `checkLayer` has already guaranteed the field is
present.  An unsupported type raises `NotImplementedError`. -/
def createHiddenLayer (name : Option String) (l : Layer) (irangeSqVal : ℚ) :
    Except String BackendLayer :=
  if l.type = "Rectifier" then
    match checkLayer l ["units"] with
    | Except.error e => Except.error e
    | Except.ok _ => Except.ok (.rectifiedLinear name (l.units.getD 0) irangeSqVal)
  else if l.type = "Sigmoid" then
    match checkLayer l ["units"] with
    | Except.error e => Except.error e
    | Except.ok _ => Except.ok (.sigmoidLayer name (l.units.getD 0) irangeSqVal)
  else if l.type = "Tanh" then
    match checkLayer l ["units"] with
    | Except.error e => Except.error e
    | Except.ok _ => Except.ok (.tanhLayer name (l.units.getD 0) irangeSqVal)
  else if l.type = "Maxout" then
    match checkLayer l ["units", "pieces"] with
    | Except.error e => Except.error e
    | Except.ok _ =>
      Except.ok (.maxoutLayer name (l.units.getD 0) (l.pieces.getD 0) irangeSqVal)
  else if l.type = "Convolution" then
    match checkLayer l ["channels", "kernel_shape"] with
    | Except.error e => Except.error e
    | Except.ok _ =>
      -- `pool_shape or (1,1)` / `pool_type or 'max'`: Python `or` replaces
      -- a `None` value by the default; `pool_stride=(1,1)` is fixed.
      Except.ok (.convRectifiedLinear name (l.channels.getD 0)
        (l.kernelShape.getD (1, 1)) (l.poolShape.getD (1, 1)) (1, 1)
        (l.poolType.getD "max") irangeSqVal)
  else
    Except.error ("Hidden layer type `" ++ l.type ++ "` is not supported.")

/-- `_create_output_layer` (mlp.py lines 380-411): the output layer uses
the unscaled base range `lim = sqrt(6)/sqrt(fan_in+fan_out)`, stored here
as its square `6/(fan_in+fan_out)`.  `Gaussian` additionally fixes
`init_beta=0.1`, `min_beta=0.001`, `max_beta=1000`. -/
def createOutputLayer (fanIn fanOut : ℕ) (l : Layer) :
    Except String BackendLayer :=
  let limSq : ℚ := 6 / ((fanIn : ℚ) + (fanOut : ℚ))
  if l.type = "Linear" then
    match checkLayer l ["units"] with
    | Except.error e => Except.error e
    | Except.ok _ => Except.ok (.linearLayer l.name (l.units.getD 0) limSq)
  else if l.type = "Gaussian" then
    match checkLayer l ["units"] with
    | Except.error e => Except.error e
    | Except.ok _ =>
      Except.ok (.linearGaussian l.name (1/10) (1/1000) 1000 (l.units.getD 0) limSq)
  else if l.type = "Softmax" then
    match checkLayer l ["units"] with
    | Except.error e => Except.error e
    | Except.ok _ => Except.ok (.softmaxLayer l.name (l.units.getD 0) limSq)
  else
    Except.error ("Output layer type `" ++ l.type ++ "` is not supported.")

/-- The scaled initialization range of one hidden layer, squared
(mlp.py lines 420-427).  `lim = sqrt(6)/sqrt(fan_in+fan_out)`, so
`limSq = 6/(fan_in+fan_out)`; the Tanh branch executes `lim *= 1.1 * lim`,
i.e. the range becomes `1.1 * lim^2` with square `(1.1 * limSq)^2`; the
He-style branch multiplies the range by `sqrt 2` (square `2 * limSq`) and
the Sigmoid branch by `4` (square `16 * limSq`). -/
def hiddenLimSq (t : String) (fanIn fanOut : ℕ) : ℚ :=
  let limSq : ℚ := 6 / ((fanIn : ℚ) + (fanOut : ℚ))
  if t = "Tanh" then ((11/10) * limSq) ^ 2
  else if t ∈ ["Rectifier", "Maxout", "Convolution"] then 2 * limSq
  else if t = "Sigmoid" then 16 * limSq
  else limSq

/-- `None` appearing where an integer fan value is needed raises a
`TypeError` in Python (`sqrt` of `None + int`). -/
def expectNat : Option ℕ → Except String ℕ
  | some n => Except.ok n
  | none => Except.error "unsupported operand type for +: NoneType and int"

/-- The hidden-layer loop of `_create_mlp` (mlp.py lines 415-430):
layer `i` uses `fan_in = unit_counts[i]` and `fan_out = unit_counts[i+1]`;
a missing unit count index raises `IndexError`. -/
def buildHidden : List Layer → List (Option ℕ) → Except String (List BackendLayer)
  | [], _ => Except.ok []
  | l :: ls, u0 :: u1 :: rest =>
    (match expectNat u0 with
     | Except.error e => Except.error e
     | Except.ok fanIn =>
       match expectNat u1 with
       | Except.error e => Except.error e
       | Except.ok fanOut =>
         match createHiddenLayer l.name l (hiddenLimSq l.type fanIn fanOut) with
         | Except.error e => Except.error e
         | Except.ok bl =>
           match buildHidden ls (u1 :: rest) with
           | Except.error e => Except.error e
           | Except.ok bls => Except.ok (bl :: bls))
  | _ :: _, _ => Except.error "list index out of range"

/-- The layer list assembled by `_create_mlp` (mlp.py lines 413-434):
hidden layers from `self.layers[:-1]`, then the output layer from
`self.layers[-1]` with `fan_in = unit_counts[-2]`,
`fan_out = unit_counts[-1]`. -/
def buildMlpLayers (layers : List Layer) (uc : List (Option ℕ)) :
    Except String (List BackendLayer) :=
  match buildHidden layers.dropLast uc with
  | Except.error e => Except.error e
  | Except.ok hidden =>
    match layers.getLast? with
    | none => Except.error "list index out of range"
    | some ll =>
      if uc.length < 2 then Except.error "list index out of range"
      else
        match expectNat (uc.getD (uc.length - 2) none) with
        | Except.error e => Except.error e
        | Except.ok fanIn =>
          match expectNat (uc.getD (uc.length - 1) none) with
          | Except.error e => Except.error e
          | Except.ok fanOut =>
            match createOutputLayer fanIn fanOut ll with
            | Except.error e => Except.error e
            | Except.ok out => Except.ok (hidden ++ [out])

/-- `numpy` shape of a weight matrix: the list of row lengths (for the
rectangular arrays of the source this determines `(rows, cols)`). -/
def wshape (w : Mat) : List ℕ := w.map List.length

/-- `_array_to_mlp` (mlp.py lines 544-550): `zip` truncates to the
shorter list; each layer's stored shapes must match the snapshot entry
(`assert`), then the weights and biases are overwritten. -/
def arrayToMlp : List MlpLayerM → List (Mat × Vec) → Except String (List MlpLayerM)
  | ls, [] => Except.ok ls
  | [], _ :: _ => Except.ok []
  | ml :: ls, (w, b) :: arr =>
    if wshape ml.weights = wshape w then
      if ml.biases.length = b.length then
        match arrayToMlp ls arr with
        | Except.error e => Except.error e
        | Except.ok rest => Except.ok ({ ml with weights := w, biases := b } :: rest)
      else Except.error "AssertionError"
    else Except.error "AssertionError"

/-- `_mlp_to_array` (mlp.py lines 535-536). -/
def mlpToArray (m : MlpM) : List (Mat × Vec) :=
  m.layers.map (fun l => (l.weights, l.biases))

/-- Bool substring test used for `is_convolution`. -/
def containsSub (needle : List Char) : List Char → Bool
  | [] => needle.isEmpty
  | c :: t => needle.isPrefixOf (c :: t) || containsSub needle t

/-- `is_convolution` (mlp.py lines 517-521): `"Conv" in self.layers[0].type`
(an empty layer list would raise `IndexError`; the claims never build one). -/
def isConvolutionL (layers : List Layer) : Bool :=
  match layers.head? with
  | some l => containsSub "Conv".toList l.type.toList
  | none => false

/-- The external pylearn2 random weight initialization performed inside
`mlp.MLP(...)`: given the constructed layer objects, `nvis` and the seed,
it draws one `(weights, biases)` pair per layer. -/
abbrev InitW := List BackendLayer → Option ℕ → Option ℕ → List (Mat × Vec)

/-- `is_initialized` (mlp.py lines 511-515):
`not (self.mlp is None or self.f is None)`. -/
def isInitialized (s : NNState) : Bool := s.mlp.isSome && s.f.isSome

/-- The `mlp.MLP(...)` constructor call of `_create_mlp`
(mlp.py lines 436-440): wraps the built layer objects with the backend's
fresh random weight draws (`initW`); `nvis` is `None` for convolution
networks and the input width otherwise. -/
def freshMlp (initW : InitW) (s : NNState) (uc : List (Option ℕ))
    (bls : List BackendLayer) : MlpM :=
  let nvis : Option ℕ := if isConvolutionL s.layers then none else uc.headD none
  { layers := (bls.zip (initW bls nvis s.randomState)).map
      (fun p => { blayer := p.1, weights := p.2.1, biases := p.2.2 })
    nvis := nvis
    seed := s.randomState }

/-- `_create_mlp` (mlp.py lines 413-447): build the layer objects, let the
backend draw fresh weights (`freshMlp`), install the persisted snapshot
over them when `self.weights` is set, and compile the forward function
(recorded as the mlp it was compiled from). -/
def createMlp (initW : InitW) (s : NNState) : Except String NNState :=
  match s.unitCounts with
  | none => Except.error "unsupported operand type: NoneType is not subscriptable"
  | some uc =>
    match buildMlpLayers s.layers uc with
    | Except.error e => Except.error e
    | Except.ok bls =>
      match s.weights with
      | some arr =>
        (match arrayToMlp (freshMlp initW s uc bls).layers arr with
         | Except.error e => Except.error e
         | Except.ok ls =>
           Except.ok
             { s with
               mlp := some { freshMlp initW s uc bls with layers := ls }
               weights := none
               f := some { freshMlp initW s uc bls with layers := ls } })
      | none =>
        Except.ok
          { s with
            mlp := some (freshMlp initW s uc bls)
            f := some (freshMlp initW s uc bls) }

/-- The dropout-parameter aggregation loop of `_create_trainer`
(mlp.py lines 286-290): for each layer with a dropout setting,
`incl = 1.0 - l.dropout` and `scales[l.name] = 1.0 / incl`; Python raises
`ZeroDivisionError` when `incl == 0`, i.e. when `l.dropout == 1.0`. -/
def dropoutParams : List Layer →
    Except String (List (Option String × ℚ) × List (Option String × ℚ))
  | [] => Except.ok ([], [])
  | l :: ls =>
    match l.dropout with
    | none => dropoutParams ls
    | some d =>
      let incl := 1 - d
      if incl = 0 then Except.error "float division by zero"
      else
        match dropoutParams ls with
        | Except.error e => Except.error e
        | Except.ok (probs, scales) =>
          Except.ok ((l.name, incl) :: probs, (l.name, 1 / incl) :: scales)

/-- The trainer configuration produced by `_create_trainer`
(mlp.py lines 282-318): the (possibly new) cost plus the `sgd.SGD`
constructor arguments; `termination` is the `MonitorBased(N=n_stable,
prop_decrease=f_stable)` criterion, present exactly when a monitoring
dataset exists. -/
structure TrainerConfig where
  cost : CostConfig
  batchSize : ℕ
  lrObj : Option LearningRuleObj
  learningRate : ℚ
  termination : Option (ℕ × ℚ)
deriving DecidableEq

/-- `_create_trainer` (mlp.py lines 282-318).  When the cost is the string
`"Dropout"` or any per-layer dropout is present, the global rate supplies
the defaults: `incl = 1.0 - self.dropout`, `default_scale = 1.0 / incl`
(again unguarded division).  Returns the new `self.cost` together with the
trainer configuration. -/
def createTrainer (s : NNState) (hasVs : Bool) :
    Except String (CostConfig × TrainerConfig) :=
  match dropoutParams s.layers with
  | Except.error e => Except.error e
  | Except.ok (probs, scales) =>
    let costE : Except String CostConfig :=
      if s.cost = CostConfig.dropoutName ∨ 0 < probs.length then
        let incl := 1 - s.dropout
        if incl = 0 then Except.error "float division by zero"
        else Except.ok (CostConfig.dropoutCost incl (1 / incl) probs scales)
      else Except.ok s.cost
    match costE with
    | Except.error e => Except.error e
    | Except.ok cost =>
      Except.ok (cost,
        { cost := cost
          batchSize := s.batchSize
          lrObj := s.lrObj
          learningRate := s.learningRate
          termination := if hasVs then some (s.nStable, s.fStable) else none })

/-- `y.shape[1]` of a (rectangular) 2-D array. -/
def yWidth (y : Mat) : ℕ := (y.headD []).length

/-- The external `sklearn.cross_validation.train_test_split` call
(mlp.py lines 490-493), abstracted: `(X, y, test_size, random_state) ↦
(X_train, X_valid, y_train, y_valid)`. -/
abbrev SplitFn := Mat → Mat → ℚ → Option ℕ → (Mat × Mat × Mat × Mat)

/-- The output-layer unit handling of `_initialize` (mlp.py lines
469-474): infer a missing unit count from `y.shape[1] = w`, or assert the
specified count matches it. -/
def inferOutputUnits (layers : List Layer) (ll : Layer) (w : ℕ) :
    Except String (List Layer) :=
  if ll.units = none then
    Except.ok (layers.dropLast ++ [{ ll with units := some w }])
  else if ll.units = some w then
    Except.ok layers
  else
    Except.error "Mismatch between dataset size and units in output layer."

/-- `self.unit_counts` (mlp.py lines 476-482): the input width followed
by each layer's `units`, falling back to `channels` (possibly `None`). -/
def unitCountsOf (layers' : List Layer) (X : Mat) : List (Option ℕ) :=
  some (X.headD []).length ::
    layers'.map (fun l =>
      match l.units with
      | some u => some u
      | none => l.channels)

/-- The validation-split step of `_initialize` (mlp.py lines 488-495):
with `valid_size > 0`, an explicit `valid_set` is rejected; otherwise the
external `train_test_split` carves out the validation fraction. -/
def validSplit (split : SplitFn) (s : NNState) (X y : Mat) :
    Except String (Option (Mat × Mat) × Mat × Mat) :=
  if 0 < s.validSize then
    if s.validSet.isSome then
      Except.error "Can't specify valid_size and valid_set together."
    else
      Except.ok (some ((split X y s.validSize s.randomState).2.1,
                       (split X y s.validSize s.randomState).2.2.2),
                 (split X y s.validSize s.randomState).1,
                 (split X y s.validSize s.randomState).2.2.1)
  else Except.ok (s.validSet, X, y)

/-- `_initialize` (mlp.py lines 461-508): asserts the network is not yet
initialized; infers or checks the output layer's unit count against
`y.shape[1]`; derives `unit_counts`; optionally splits off a validation
fraction; builds the mlp and the trainer (which updates `self.cost`).
The dataset containers `ds`/`vs` are backend objects and not recorded. -/
def netInit (split : SplitFn) (initW : InitW) (s : NNState) (X y : Mat) :
    Except String NNState :=
  if isInitialized s then
    Except.error "This neural network has already been initialized."
  else
    match s.layers.getLast? with
    | none => Except.error "list index out of range"
    | some ll =>
      match inferOutputUnits s.layers ll (yWidth y) with
      | Except.error e => Except.error e
      | Except.ok layers' =>
        match validSplit split s X y with
        | Except.error e => Except.error e
        | Except.ok (vset, Xt, yt) =>
          match createMlp initW
              { s with layers := layers', unitCounts := some (unitCountsOf layers' X),
                       validSet := vset, trainSet := some (Xt, yt) } with
          | Except.error e => Except.error e
          | Except.ok s2 =>
            match createTrainer s2 vset.isSome with
            | Except.error e => Except.error e
            | Except.ok (cost', _) => Except.ok { s2 with cost := cost' }

/-- Why the `_fit` loop stopped (mlp.py lines 597-604): the trainer's
early-stopping criterion (`continue_learning` returned false) or the
`n_iter` cap (`i >= self.n_iter`). -/
inductive StopReason where
  | earlyStop
  | iterCap
deriving DecidableEq

/-- The training loop of `_fit` (mlp.py lines 590-604) with a finite
`n_iter = n`, counted with fuel `n - i`: every iteration performs one
`trainer.train` pass at index `i`, then checks `continue_learning`
(abstracted as `cont i`) and then the cap `i >= n`.  Returns the number of
optimizer passes performed and which condition fired. -/
def fitLoopGo (cont : ℕ → Bool) : ℕ → ℕ → ℕ × StopReason
  | i, 0 => if cont i then (i + 1, StopReason.iterCap) else (i + 1, StopReason.earlyStop)
  | i, fuel + 1 =>
    if cont i then fitLoopGo cont (i + 1) fuel else (i + 1, StopReason.earlyStop)

/-- The `_fit` loop started at `i = 0` with `n_iter = n`. -/
def fitLoop (cont : ℕ → Bool) (n : ℕ) : ℕ × StopReason := fitLoopGo cont 0 n

/-- `_predict` (mlp.py lines 625-634): raises `ValueError` before any fit;
otherwise applies the compiled forward function — the abstract backend
forward pass `F` applied to the mlp recorded in `self.f` (the float32 cast
and sparse-to-dense conversion are identities in this idealization). -/
def predictM (F : MlpM → Mat → Mat) (s : NNState) (X : Mat) : Except String Mat :=
  match s.mlp, s.f with
  | some _, some m => Except.ok (F m X)
  | _, _ => Except.error "The neural network has not been trained."

/-- Row-wise renormalization `proba / proba.sum(1, keepdims=True)`
(mlp.py line 728). -/
def normalizeRows (p : Mat) : Mat :=
  p.map (fun r => r.map (fun x => x / r.sum))

/-- `MultiLayerPerceptronClassifier.predict_proba` (mlp.py lines 712-728). -/
def predictProba (F : MlpM → Mat → Mat) (s : NNState) (X : Mat) :
    Except String Mat :=
  match predictM F s X with
  | Except.error e => Except.error e
  | Except.ok proba => Except.ok (normalizeRows proba)

/-- `_fit` (mlp.py lines 552-623): first asserts equal sample counts, then
initializes on first call (or just swaps the training set in), then runs
the training loop.  With a finite `n_iter` the loop's pass count and stop
reason are returned; with `n_iter = None` the loop is governed purely by
the backend's early-stopping monitor and its length is not modelled. -/
def fitM (split : SplitFn) (initW : InitW) (cont : ℕ → Bool) (s : NNState)
    (X y : Mat) : Except String (NNState × Option (ℕ × StopReason)) :=
  if X.length ≠ y.length then
    Except.error "Expecting same number of input and output samples."
  else
    match (if isInitialized s then Except.ok { s with trainSet := some (X, y) }
           else netInit split initW s X y : Except String NNState) with
    | Except.error e => Except.error e
    | Except.ok s1 =>
      match s1.nIter with
      | some n => Except.ok (s1, some (fitLoop cont n))
      | none => Except.ok (s1, none)

/-- `MultiLayerPerceptronClassifier.fit` (mlp.py lines 696-705): asserts
equal sample counts, binarizes the labels (external `LabelBinarizer`,
abstracted as `lb`), then trains on the one-hot targets. -/
def classifierFit (lb : List String → Mat) (split : SplitFn) (initW : InitW)
    (cont : ℕ → Bool) (s : NNState) (X : Mat) (y : List String) :
    Except String (NNState × Option (ℕ × StopReason)) :=
  if X.length ≠ y.length then
    Except.error "Expecting same number of input and output samples."
  else
    fitM split initW cont s X (lb y)

/-- `__getstate__` (mlp.py lines 523-536): asserts the network is
initialized, snapshots the per-layer `(weights, biases)` pairs into
`self.weights`, and drops the live backend handles (`ds`, `vs`, `f`,
`trainer`, `mlp`). -/
def getstate (s : NNState) : Except String NNState :=
  match s.mlp with
  | none => Except.error "The neural network has not been initialized."
  | some m =>
    Except.ok { s with weights := some (mlpToArray m), mlp := none, f := none }

/-- `__setstate__` (mlp.py lines 538-542): restores the stored attributes,
resets the backend handles to `None`, and rebuilds the mlp (which installs
the snapshot weights) via `_create_mlp`. -/
def setstate (initW : InitW) (d : NNState) : Except String NNState :=
  createMlp initW { d with mlp := none, f := none }

/-- Snapshot round-trip: `__getstate__` followed by `__setstate__`. -/
def roundtrip (initW : InitW) (s : NNState) : Except String NNState :=
  match getstate s with
  | Except.error e => Except.error e
  | Except.ok d => setstate initW d

/-- The initialization range asserted by the claim, squared: base
`lim = sqrt(6/(fan_in+fan_out))` times 1.21 for Tanh, `sqrt 2` for
Rectifier/Maxout/Convolution, 4 for Sigmoid, and the unscaled base for the
output layer.  (Squares: a multiplier `c` on the range is `c^2` on the
square.) -/
def claimIrangeSq (t : String) (fanIn fanOut : ℕ) (isOutput : Bool) : ℚ :=
  let limSq : ℚ := 6 / ((fanIn : ℚ) + (fanOut : ℚ))
  if isOutput then limSq
  else if t = "Tanh" then ((121/100) ^ 2) * limSq
  else if t ∈ ["Rectifier", "Maxout", "Convolution"] then 2 * limSq
  else if t = "Sigmoid" then 16 * limSq
  else limSq

/-- The amended claim's range, squared: identical to `claimIrangeSq`
except that the Tanh range is `1.1 * lim^2` (what `lim *= 1.1 * lim`
computes), whose square is `(1.1 * limSq)^2`. -/
def amendedIrangeSq (t : String) (fanIn fanOut : ℕ) (isOutput : Bool) : ℚ :=
  let limSq : ℚ := 6 / ((fanIn : ℚ) + (fanOut : ℚ))
  if isOutput then limSq
  else if t = "Tanh" then ((11/10) * limSq) ^ 2
  else if t ∈ ["Rectifier", "Maxout", "Convolution"] then 2 * limSq
  else if t = "Sigmoid" then 16 * limSq
  else limSq

/-- The amended claim read over a whole network: walking the layer list
with its unit counts, every layer but the last is a hidden layer taking
the type-scaled range from its `(fan_in, fan_out)` pair of consecutive
unit counts, and the last layer takes the unscaled base range. -/
def amendedIrangeList : List Layer → List ℕ → List ℚ
  | [], _ => []
  | [l], u0 :: u1 :: _ => [amendedIrangeSq l.type u0 u1 true]
  | l :: ls, u0 :: u1 :: rest =>
    amendedIrangeSq l.type u0 u1 false :: amendedIrangeList ls (u1 :: rest)
  | _ :: _, _ => []

/-- The hidden-layer portion of the amended range list: consecutive
unit-count pairs supply `(fan_in, fan_out)`. -/
def hiddenIrangeSpec : List Layer → List ℕ → List ℚ
  | [], _ => []
  | l :: ls, u0 :: u1 :: rest =>
    amendedIrangeSq l.type u0 u1 false :: hiddenIrangeSpec ls (u1 :: rest)
  | _ :: _, _ => []

/-- One-layer demo network: a `Linear` output layer with one unit, with
the name the constructor would auto-assign. -/
def demoLayers : List Layer :=
  [{ type := "Linear", name := some "Output_0_Linear", units := some 1 }]

/-- The state `BaseMLP.__init__` produces for `demoLayers` with default
hyperparameters and `n_iter = 1`. -/
def demoFreshState : NNState :=
  { layers := demoLayers
    randomState := none
    learningRule := "sgd"
    learningRate := 1/100
    learningMomentum := 9/10
    dropout := 0
    batchSize := 1
    nIter := some 1
    nStable := 50
    fStable := 1/1000
    validSet := none
    validSize := 0
    verbose := false
    unitCounts := none
    mlp := none
    weights := none
    trainSet := none
    f := none
    cost := CostConfig.noneCost
    lrObj := none }

/-- A concrete assembled one-layer mlp: the `Linear` output layer for
`demoLayers` (squared irange `6/(1+1) = 3`) with weight `[[1/2]]` and
bias `[0]`. -/
def demoMlp : MlpM :=
  { layers := [{ blayer := BackendLayer.linearLayer (some "Output_0_Linear") 1 3
                 weights := [[1/2]]
                 biases := [0] }]
    nvis := some 1
    seed := none }

/-- `demoFreshState` after a fit: unit counts derived, mlp assembled and
forward function compiled. -/
def demoFittedState : NNState :=
  { demoFreshState with
    unitCounts := some [some 1, some 1]
    trainSet := some ([[1]], [[1]])
    mlp := some demoMlp
    f := some demoMlp }

/-- Concrete stand-in for the backend's random weight draw: zero weights
of the right shape for one-unit layers. -/
def demoInitW : InitW := fun bls _ _ => bls.map (fun _ => ([[0]], [0]))

/-- Concrete stand-in for `train_test_split`. -/
def demoSplit : SplitFn := fun X y _ _ => (X, X, y, y)

/-- A forward pass that emits a row summing to zero — achievable for a
`Linear` output layer (e.g. weights `[[1], [-1]]` on input `[1]`). -/
def zeroSumForward : MlpM → Mat → Mat := fun _ _ => [[1, -1]]

/-- A fresh estimator whose output layer specifies 2 units, to be fitted
against one-column labels. -/
def c6State : NNState :=
  { demoFreshState with
    layers := [{ type := "Linear", name := some "out", units := some 2 }] }

/-- An unnamed Sigmoid layer. -/
def demoSigLayer : Layer := { type := "Sigmoid", units := some 2 }

/-- A two-layer sequence, the first without a name. -/
def demoTwoLayers : List Layer :=
  [demoSigLayer, { type := "Softmax", name := some "out", units := some 2 }]

/-- The state `BaseMLP.__init__` produces for `demoTwoLayers` with the
same default hyperparameters as `demoFreshState`: the first layer gets
the auto-assigned name, the named one is untouched. -/
def demoTwoState : NNState :=
  { demoFreshState with
    layers :=
      [{ type := "Sigmoid", name := some "Hidden_0_Sigmoid", units := some 2 },
       { type := "Softmax", name := some "out", units := some 2 }] }

/-- A hidden layer configured with dropout ratio 1.0. -/
def c10LayerD1 : Layer :=
  { type := "Sigmoid", name := some "a", units := some 2, dropout := some 1 }

/-- An estimator holding a layer with dropout 1.0. -/
def c10s1 : NNState := { demoFreshState with layers := [c10LayerD1] }

/-- An estimator with dropout cost active and global dropout ratio 1.0
(what the constructor produces for `dropout=1.0`). -/
def c10s2 : NNState :=
  { demoFreshState with dropout := 1, cost := CostConfig.dropoutName }

lemma createHiddenLayer_irangeSq (nm : Option String) (l : Layer) (q : ℚ)
    (bl : BackendLayer) (h : createHiddenLayer nm l q = Except.ok bl) :
    bl.irangeSq = q := by
  unfold createHiddenLayer at h
  repeat' split at h
  all_goals (try (injection h with h2; subst h2; rfl))
  all_goals injection h

lemma createOutputLayer_irangeSq (fanIn fanOut : ℕ) (l : Layer)
    (bl : BackendLayer) (h : createOutputLayer fanIn fanOut l = Except.ok bl) :
    bl.irangeSq = 6 / ((fanIn : ℚ) + (fanOut : ℚ)) := by
  unfold createOutputLayer at h
  repeat' split at h
  all_goals (try (injection h with h2; subst h2; rfl))
  all_goals injection h

lemma hiddenLimSq_eq_amended (t : String) (fanIn fanOut : ℕ) :
    hiddenLimSq t fanIn fanOut = amendedIrangeSq t fanIn fanOut false := by
  rfl

lemma expectNat_map_getD (ucN : List ℕ) (i : ℕ) (h : i < ucN.length) :
    expectNat ((ucN.map some).getD i none) = Except.ok (ucN.getD i 0) := by
  induction ucN generalizing i with
  | nil => simp at h
  | cons a t ih =>
    cases i with
    | zero => simp [expectNat]
    | succ k =>
      simp only [List.map_cons, List.getD_cons_succ]
      exact ih k (by simpa using h)

lemma getD_tail_sub2 {α : Type} (d u0 : α) (t : List α) (h : 2 ≤ t.length) :
    (u0 :: t).getD ((u0 :: t).length - 2) d = t.getD (t.length - 2) d := by
  have e : (u0 :: t).length - 2 = (t.length - 2) + 1 := by simp; omega
  rw [e, List.getD_cons_succ]

lemma getD_tail_sub1 {α : Type} (d u0 : α) (t : List α) (h : 1 ≤ t.length) :
    (u0 :: t).getD ((u0 :: t).length - 1) d = t.getD (t.length - 1) d := by
  have e : (u0 :: t).length - 1 = (t.length - 1) + 1 := by simp; omega
  rw [e, List.getD_cons_succ]

lemma buildHidden_iranges :
    ∀ (ls : List Layer) (ucN : List ℕ) (hbls : List BackendLayer),
      buildHidden ls (ucN.map some) = Except.ok hbls →
      hbls.map BackendLayer.irangeSq = hiddenIrangeSpec ls ucN := by
  intro ls
  induction ls with
  | nil =>
    intro ucN hbls h
    simp [buildHidden] at h
    simp [← h, hiddenIrangeSpec]
  | cons l t ih =>
    intro ucN hbls h
    cases ucN with
    | nil => simp [buildHidden] at h
    | cons n0 t2 =>
      cases t2 with
      | nil => simp [buildHidden] at h
      | cons n1 rest =>
        cases hbl : createHiddenLayer l.name l (hiddenLimSq l.type n0 n1) with
        | error e => simp [buildHidden, expectNat, hbl] at h
        | ok bl =>
          cases hrest : buildHidden t (some n1 :: rest.map some) with
          | error e => simp [buildHidden, expectNat, hbl, hrest] at h
          | ok tbl =>
            have h2 : bl :: tbl = hbls := by
              simpa [buildHidden, expectNat, hbl, hrest] using h
            subst h2
            have htail := ih (n1 :: rest) tbl (by simpa using hrest)
            simp [hiddenIrangeSpec, htail,
              createHiddenLayer_irangeSq _ _ _ _ hbl, hiddenLimSq_eq_amended]

lemma amendedIrangeList_decomp :
    ∀ (layers : List Layer) (ucN : List ℕ),
      ucN.length = layers.length + 1 → layers ≠ [] →
      amendedIrangeList layers ucN =
        hiddenIrangeSpec layers.dropLast ucN ++
          [6 / ((ucN.getD (ucN.length - 2) 0 : ℚ) + (ucN.getD (ucN.length - 1) 0 : ℚ))] := by
  intro layers
  induction layers with
  | nil => intro ucN _ hne; exact absurd rfl hne
  | cons l t ih =>
    intro ucN hlen _
    cases t with
    | nil =>
      cases ucN with
      | nil => simp at hlen
      | cons u0 t2 =>
        cases t2 with
        | nil => simp at hlen
        | cons u1 t3 =>
          cases t3 with
          | nil => simp [amendedIrangeList, hiddenIrangeSpec, amendedIrangeSq]
          | cons a t4 => simp at hlen
    | cons l2 t2 =>
      cases ucN with
      | nil => simp at hlen
      | cons u0 t3 =>
        cases t3 with
        | nil => simp at hlen
        | cons u1 t4 =>
          cases t4 with
          | nil => simp at hlen
          | cons r rest =>
            have hlen' : (u1 :: r :: rest).length = (l2 :: t2).length + 1 := by
              simp only [List.length_cons] at hlen ⊢
              omega
            rw [List.dropLast_cons₂]
            simp only [amendedIrangeList, hiddenIrangeSpec]
            rw [ih (u1 :: r :: rest) hlen' (by simp)]
            rw [List.cons_append]
            congr 2


lemma buildMlp_inversion (layers : List Layer) (uc : List (Option ℕ))
    (bls : List BackendLayer) (h : buildMlpLayers layers uc = Except.ok bls) :
    ∃ hidden ll fi fo out,
      buildHidden layers.dropLast uc = Except.ok hidden ∧
      layers.getLast? = some ll ∧
      expectNat (uc.getD (uc.length - 2) none) = Except.ok fi ∧
      expectNat (uc.getD (uc.length - 1) none) = Except.ok fo ∧
      createOutputLayer fi fo ll = Except.ok out ∧
      bls = hidden ++ [out] := by
  unfold buildMlpLayers at h
  repeat' split at h
  all_goals cases h
  exact ⟨_, _, _, _, _, by assumption, by assumption, by assumption, by assumption,
    by assumption, rfl⟩

/-- Claim C1, amended theorem: for every network assembled by
`_create_mlp` (unit counts being one longer than the layer list, as
`_initialize` guarantees), the square of each hidden layer's
initialization range is `lim^2 = 6/(fan_in+fan_out)` scaled by the square
of its type multiplier — `sqrt 2` for Rectifier/Maxout/Convolution, `4`
for Sigmoid — except that the Tanh branch (`lim *= 1.1 * lim`) produces
the range `1.1 * lim^2` (squared: `(1.1 * lim^2)^2`), NOT `1.21 * lim` as
the claim states; the output layer uses the unscaled base range. -/
theorem c1_iranges_amended (layers : List Layer) (ucN : List ℕ)
    (bls : List BackendLayer) (hlen : ucN.length = layers.length + 1)
    (h : buildMlpLayers layers (ucN.map some) = Except.ok bls) :
    bls.map BackendLayer.irangeSq = amendedIrangeList layers ucN := by
  obtain ⟨hidden, ll, fi, fo, out, hh, hll, hf1, hf2, hout, hbls⟩ :=
    buildMlp_inversion _ _ _ h
  have hne : layers ≠ [] := by
    intro he
    rw [he] at hll
    simp at hll
  have hpos : 1 ≤ layers.length := List.length_pos.mpr hne
  have e2 : (ucN.map some).length - 2 = ucN.length - 2 := by simp
  have e1 : (ucN.map some).length - 1 = ucN.length - 1 := by simp
  rw [e2, expectNat_map_getD ucN (ucN.length - 2) (by omega)] at hf1
  rw [e1, expectNat_map_getD ucN (ucN.length - 1) (by omega)] at hf2
  have hfi : fi = ucN.getD (ucN.length - 2) 0 := by
    injection hf1 with h2; exact h2.symm
  have hfo : fo = ucN.getD (ucN.length - 1) 0 := by
    injection hf2 with h2; exact h2.symm
  subst hbls hfi hfo
  rw [List.map_append, buildHidden_iranges _ _ _ hh, List.map_singleton,
    createOutputLayer_irangeSq _ _ _ _ hout,
    amendedIrangeList_decomp layers ucN hlen hne]

/-- Claim C1, counterexample to the claim as stated: take a Tanh hidden
layer with `fan_in = fan_out = 3`, so `lim = sqrt(6/6) = 1`.
`_create_mlp` builds it with squared range `121/100` (range `1.1`,
because `lim *= 1.1 * lim` squares the base), while the claimed
`1.21 * lim` range has square `(121/100)^2`; the two differ. -/
theorem c1_cex :
    buildMlpLayers
        [{ type := "Tanh", name := some "h", units := some 3 },
         { type := "Linear", name := some "o", units := some 3 }]
        ([3, 3, 3].map some) =
      Except.ok
        [BackendLayer.tanhLayer (some "h") 3 (121/100),
         BackendLayer.linearLayer (some "o") 3 1] ∧
    (121/100 : ℚ) ≠ claimIrangeSq "Tanh" 3 3 false := by
  constructor
  · simp [buildMlpLayers, buildHidden, createHiddenLayer, createOutputLayer,
      checkLayer, layerFieldIsNone, hiddenLimSq, expectNat]
    norm_num
  · norm_num [claimIrangeSq]

/-- Witness for `c1_iranges_amended` at a concrete Tanh-then-Linear
network with all unit counts 3. -/
theorem c1_iranges_amended_witness :
    ([BackendLayer.tanhLayer (some "h") 3 (121/100),
      BackendLayer.linearLayer (some "o") 3 1].map BackendLayer.irangeSq) =
      amendedIrangeList
        [{ type := "Tanh", name := some "h", units := some 3 },
         { type := "Linear", name := some "o", units := some 3 }] [3, 3, 3] :=
  c1_iranges_amended _ _ _ (by decide)
    (by simp [buildMlpLayers, buildHidden, createHiddenLayer, createOutputLayer,
          checkLayer, layerFieldIsNone, hiddenLimSq, expectNat]
        norm_num)

/-- Claim C2 (code bug): with `n_iter = 1` and the early-stopping
criterion never firing, the `_fit` loop performs 2 optimizer passes (at
`i = 0` and `i = 1`) before the iteration-cap break fires — one more than
the configured cap, contradicting the constructor docstring ("the number
of iterations of gradient descent to perform") because the cap check
`i >= self.n_iter` runs after the pass at index `i`. -/
theorem c2_loop_extra_pass :
    fitLoop (fun _ => true) 1 = (2, StopReason.iterCap) := rfl

/-- Claim C3: any type string outside the eight supported kinds is
rejected with a not-implemented error by `Layer.__init__`
(`Layer.mkChecked`), so it never reaches the builders — and both
layer-build functions also raise a not-implemented error if a layer
carrying such a type reaches them. -/
theorem c3_unknown_type_rejected (t : String) (ht : t ∉ layerTypes)
    (nm nm2 : Option String) (units pieces channels : Option ℕ)
    (ks ps : Option (ℕ × ℕ)) (pt : Option String) (d : Option ℚ)
    (l : Layer) (hl : l.type = t) (ir : ℚ) (fi fo : ℕ) :
    Layer.mkChecked t nm units pieces channels ks ps pt d =
      Except.error ("Layer type `" ++ t ++ "` is not implemented.") ∧
    createHiddenLayer nm2 l ir =
      Except.error ("Hidden layer type `" ++ t ++ "` is not supported.") ∧
    createOutputLayer fi fo l =
      Except.error ("Output layer type `" ++ t ++ "` is not supported.") := by
  simp only [layerTypes, List.mem_cons, List.not_mem_nil, or_false, not_or] at ht
  obtain ⟨h1, h2, h3, h4, h5, h6, h7, h8⟩ := ht
  refine ⟨?_, ?_, ?_⟩
  · simp [Layer.mkChecked, layerTypes, h1, h2, h3, h4, h5, h6, h7, h8]
  · simp [createHiddenLayer, hl, h1, h2, h3, h4, h5]
  · simp [createOutputLayer, hl, h6, h7, h8]

/-- Witness for `c3_unknown_type_rejected` at the type string `"Bogus"`. -/
theorem c3_witness :
    Layer.mkChecked "Bogus" none none none none none none none none =
      Except.error ("Layer type `" ++ "Bogus" ++ "` is not implemented.") ∧
    createHiddenLayer none { type := "Bogus" } 1 =
      Except.error ("Hidden layer type `" ++ "Bogus" ++ "` is not supported.") ∧
    createOutputLayer 1 1 { type := "Bogus" } =
      Except.error ("Output layer type `" ++ "Bogus" ++ "` is not supported.") :=
  c3_unknown_type_rejected "Bogus" (by decide) none none none none none
    none none none none { type := "Bogus" } rfl 1 1 1

/-- Claim C4: calling `fit` with differing sample counts fails with the
sample-count-mismatch error; the `assert X.shape[0] == y.shape[0]` is the
first statement of both `BaseMLP._fit` and the classifier's `fit`, so no
backend call happens and (this embedding returning only the error) no
estimator state is produced. -/
theorem c4_sample_mismatch (lb : List String → Mat) (split : SplitFn)
    (initW : InitW) (cont : ℕ → Bool) (s : NNState) (X y : Mat)
    (yc : List String) (h : X.length ≠ y.length) (hc : X.length ≠ yc.length) :
    fitM split initW cont s X y =
      Except.error "Expecting same number of input and output samples." ∧
    classifierFit lb split initW cont s X yc =
      Except.error "Expecting same number of input and output samples." := by
  constructor
  · simp [fitM, h]
  · simp [classifierFit, hc]

/-- Witness for `c4_sample_mismatch`: X with 10 samples against y with 9
samples, for the regressor path and the classifier path. -/
theorem c4_witness :
    fitM demoSplit demoInitW (fun _ => true) demoFreshState
        (List.replicate 10 [0]) (List.replicate 9 [0]) =
      Except.error "Expecting same number of input and output samples." ∧
    classifierFit (fun ys => ys.map (fun _ => [1])) demoSplit demoInitW
        (fun _ => true) demoFreshState (List.replicate 10 [0])
        (List.replicate 9 "a") =
      Except.error "Expecting same number of input and output samples." :=
  c4_sample_mismatch (fun ys => ys.map (fun _ => [1])) demoSplit demoInitW
    (fun _ => true) demoFreshState (List.replicate 10 [0])
    (List.replicate 9 [0]) (List.replicate 9 "a") (by decide) (by decide)

/-- Claim C5: on a freshly constructed estimator (`BaseMLP.__init__`
leaves `mlp = f = None`, so `is_initialized` is false), `predict` — and
`predict_proba`, which calls it — raises "has not been trained"; the
method only reads state, so the estimator is unchanged. -/
theorem c5_predict_before_fit (layers : List Layer) (rs : Option ℕ)
    (rule : String) (lr lm : ℚ) (darg : DropoutArg) (bs : ℕ)
    (ni : Option ℕ) (ns : ℕ) (fs : ℚ) (vset : Option (Mat × Mat))
    (vsize : ℚ) (vb : Bool) (s : NNState) (F : MlpM → Mat → Mat) (X : Mat)
    (h : baseInit layers rs rule lr lm darg bs ni ns fs vset vsize vb =
      Except.ok s) :
    isInitialized s = false ∧
    predictM F s X = Except.error "The neural network has not been trained." ∧
    predictProba F s X = Except.error "The neural network has not been trained." := by
  unfold baseInit at h
  cases hm : mkLrObj rule lm with
  | error e => rw [hm] at h; cases h
  | ok o =>
    rw [hm] at h
    cases h
    exact ⟨rfl, rfl, rfl⟩

lemma createMlp_layers (initW : InitW) (s s' : NNState)
    (h : createMlp initW s = Except.ok s') : s'.layers = s.layers := by
  unfold createMlp at h
  repeat' split at h
  all_goals cases h
  all_goals rfl

lemma netInit_ok_layers (split : SplitFn) (initW : InitW) (s : NNState)
    (X y : Mat) (s' : NNState) (h : netInit split initW s X y = Except.ok s') :
    ∃ ll layers', s.layers.getLast? = some ll ∧
      inferOutputUnits s.layers ll (yWidth y) = Except.ok layers' ∧
      s'.layers = layers' := by
  unfold netInit at h
  repeat' split at h
  all_goals cases h
  all_goals
    (have hcm := createMlp_layers _ _ _ (by assumption)
     exact ⟨_, _, by assumption, by assumption, hcm⟩)

lemma inferOutputUnits_ok (layers : List Layer) (ll : Layer) (w : ℕ)
    (layers' : List Layer) (hlast : layers.getLast? = some ll)
    (h : inferOutputUnits layers ll w = Except.ok layers') :
    layers'.getLast?.map Layer.units = some (some w) := by
  unfold inferOutputUnits at h
  split at h
  · cases h
    simp
  · split at h
    · cases h
      rename_i hu
      rw [hlast]
      simp [hu]
    · cases h

/-- Claim C6: at first initialization (`_initialize`, reachable only with
`is_initialized` false), a last layer whose unit count was left
unspecified gets it set to the label width `y.shape[1]`; on success the
last layer's unit count always equals the label width, and a specified
count differing from the label width makes initialization fail with the
mismatch error. -/
theorem c6_output_units (split : SplitFn) (initW : InitW) (s : NNState)
    (X y : Mat) (ll : Layer) (hinit : isInitialized s = false)
    (hlast : s.layers.getLast? = some ll) :
    (∀ s', netInit split initW s X y = Except.ok s' →
        s'.layers.getLast?.map Layer.units = some (some (yWidth y))) ∧
    (∀ u, ll.units = some u → u ≠ yWidth y →
        netInit split initW s X y =
          Except.error "Mismatch between dataset size and units in output layer.") := by
  constructor
  · intro s' h
    obtain ⟨ll2, layers', hlast2, hinf, hL⟩ := netInit_ok_layers _ _ _ _ _ _ h
    rw [hlast] at hlast2
    injection hlast2 with he
    subst he
    rw [hL]
    exact inferOutputUnits_ok _ _ _ _ hlast hinf
  · intro u hu hne
    have hinf : inferOutputUnits s.layers ll (yWidth y) =
        Except.error "Mismatch between dataset size and units in output layer." := by
      unfold inferOutputUnits
      rw [if_neg (by simp [hu]), if_neg (by simp [hu, hne])]
    simp [netInit, hinit, hlast, hinf]

/-- Witness for `c6_output_units`: an output layer declared with 2 units
fitted against one-column labels fails with the mismatch error. -/
theorem c6_witness :
    netInit demoSplit demoInitW c6State [[1]] [[1]] =
      Except.error "Mismatch between dataset size and units in output layer." :=
  (c6_output_units demoSplit demoInitW c6State [[1]] [[1]]
      { type := "Linear", name := some "out", units := some 2 } rfl rfl).2
    2 rfl (by decide)

lemma arrayToMlp_restore (mls : List MlpLayerM) (fresh : List (Mat × Vec))
    (h : List.Forall₂
      (fun (fr : Mat × Vec) (ml : MlpLayerM) =>
        wshape fr.1 = wshape ml.weights ∧ fr.2.length = ml.biases.length)
      fresh mls) :
    arrayToMlp
      (((mls.map MlpLayerM.blayer).zip fresh).map
        (fun p => { blayer := p.1, weights := p.2.1, biases := p.2.2 }))
      (mls.map (fun l => (l.weights, l.biases))) = Except.ok mls := by
  induction h with
  | nil => rfl
  | cons hrel hrest ih =>
    rename_i fr ml fresh' mls'
    obtain ⟨hw, hb⟩ := hrel
    obtain ⟨bl, w, b⟩ := ml
    simp only [List.map_cons, List.zip_cons_cons]
    simp only [List.map_cons] at ih
    simp [arrayToMlp, hw, hb, ih]

/-- Claim C7: on an estimator in a fitted state (live `mlp` present, the
forward function compiled from it, and the configuration consistent with
it — which `_initialize`/`_create_mlp` guarantee), taking the
`__getstate__` snapshot, dropping the live handles and restoring via
`__setstate__` rebuilds an mlp equal to the original (the snapshot weights
pass the shape asserts and overwrite the fresh draws), so every
deterministic forward pass `F` predicts identically before and after. -/
theorem c7_roundtrip (initW : InitW) (s : NNState) (m : MlpM)
    (uc : List (Option ℕ)) (hm : s.mlp = some m) (hf : s.f = some m)
    (huc : s.unitCounts = some uc)
    (hb : buildMlpLayers s.layers uc = Except.ok (m.layers.map MlpLayerM.blayer))
    (hnvis : m.nvis = (if isConvolutionL s.layers then none else uc.headD none))
    (hseed : m.seed = s.randomState)
    (hshapes : List.Forall₂
        (fun (fr : Mat × Vec) (ml : MlpLayerM) =>
          wshape fr.1 = wshape ml.weights ∧ fr.2.length = ml.biases.length)
        (initW (m.layers.map MlpLayerM.blayer) m.nvis m.seed) m.layers) :
    ∃ s', roundtrip initW s = Except.ok s' ∧ s'.mlp = some m ∧ s'.f = some m ∧
      ∀ (F : MlpM → Mat → Mat) (X : Mat), predictM F s' X = predictM F s X := by
  obtain ⟨mlayers, mnvis, mseed⟩ := m
  simp only at hnvis hseed
  subst hnvis
  subst hseed
  simp only at hb hshapes
  have hrt : roundtrip initW s = Except.ok
      { s with
        weights := none
        mlp := some ⟨mlayers,
          if isConvolutionL s.layers then none else uc.headD none, s.randomState⟩
        f := some ⟨mlayers,
          if isConvolutionL s.layers then none else uc.headD none, s.randomState⟩ } := by
    simp only [roundtrip, getstate, hm]
    simp only [setstate, createMlp, huc, hb, freshMlp, mlpToArray]
    rw [arrayToMlp_restore _ _ hshapes]
  refine ⟨_, hrt, rfl, rfl, ?_⟩
  intro F X
  simp [predictM, hm, hf]

/-- Witness for `c5_predict_before_fit` on the concrete fresh demo
estimator. -/
theorem c5_witness :
    isInitialized demoFreshState = false ∧
    predictM (fun _ X => X) demoFreshState [[1]] =
      Except.error "The neural network has not been trained." ∧
    predictProba (fun _ X => X) demoFreshState [[1]] =
      Except.error "The neural network has not been trained." :=
  c5_predict_before_fit demoLayers none "sgd" (1/100) (9/10)
    (DropoutArg.boolArg false) 1 (some 1) 50 (1/1000) none 0 false
    demoFreshState (fun _ X => X) [[1]] rfl

/-- Witness for `c7_roundtrip` on the concrete fitted one-layer demo
estimator. -/
theorem c7_witness :
    ∃ s', roundtrip demoInitW demoFittedState = Except.ok s' ∧
      s'.mlp = some demoMlp ∧ s'.f = some demoMlp ∧
      ∀ (F : MlpM → Mat → Mat) (X : Mat),
        predictM F s' X = predictM F demoFittedState X :=
  c7_roundtrip demoInitW demoFittedState demoMlp [some 1, some 1]
    rfl rfl rfl
    (by simp [buildMlpLayers, buildHidden, createOutputLayer, checkLayer,
          layerFieldIsNone, expectNat, demoFittedState, demoFreshState,
          demoLayers, demoMlp]
        norm_num)
    rfl rfl
    (by refine List.Forall₂.cons ⟨?_, ?_⟩ List.Forall₂.nil <;> rfl)

lemma sum_map_div (r : List ℚ) (c : ℚ) :
    (r.map (fun x => x / c)).sum = r.sum / c := by
  induction r with
  | nil => simp
  | cons a t ih => simp [ih, add_div]

/-- Claim C8, amended theorem: `predict_proba` renormalizes the raw
forward-pass output row-wise (`proba / proba.sum(1)`), and every row
whose raw sum is nonzero sums to exactly 1 (floating-point tolerance
idealized as exact rational arithmetic); a zero raw row sum hits the
unguarded division and is not normalized to 1. -/
theorem c8_proba_rows (F : MlpM → Mat → Mat) (s : NNState) (X : Mat)
    (raw : Mat) (h : predictM F s X = Except.ok raw) :
    predictProba F s X = Except.ok (normalizeRows raw) ∧
    ∀ r ∈ raw, r.sum ≠ 0 → (r.map (fun x => x / r.sum)).sum = 1 := by
  constructor
  · simp [predictProba, h]
  · intro r _ hr
    rw [sum_map_div]
    exact div_self hr

/-- Claim C8, counterexample to the claim as stated: a fitted classifier
whose forward pass emits the row `[1, -1]` (achievable with a `Linear`
output layer) has raw row sum 0; `proba / proba.sum(1)` divides by that
zero sum (numpy: nan/inf; rational idealization: 0), and the resulting
row `[0, 0]` does not sum to 1. -/
theorem c8_cex :
    predictProba zeroSumForward demoFittedState [[1]] = Except.ok [[0, 0]] ∧
    ¬ (∀ r ∈ [[(0 : ℚ), 0]], r.sum = 1) := by
  constructor
  · simp [predictProba, predictM, demoFittedState, demoFreshState,
      zeroSumForward, normalizeRows]
  · intro hall
    have h0 := hall [0, 0] (by simp)
    simp at h0

/-- Witness for `c8_proba_rows` at a forward pass emitting `[1, 1]`. -/
theorem c8_witness :
    predictProba (fun _ _ => [[1, 1]]) demoFittedState [[1]] =
      Except.ok (normalizeRows [[1, 1]]) ∧
    ∀ r ∈ [[(1 : ℚ), 1]], r.sum ≠ 0 → (r.map (fun x => x / r.sum)).sum = 1 :=
  c8_proba_rows (fun _ _ => [[1, 1]]) demoFittedState [[1]] [[1, 1]] rfl

lemma assignNamesGo_length (total : ℕ) :
    ∀ (ls : List Layer) (j : ℕ), (assignNamesGo total j ls).length = ls.length := by
  intro ls
  induction ls with
  | nil => intro j; rfl
  | cons l t ih => intro j; simp [assignNamesGo, ih]

lemma assignNamesGo_get? (total : ℕ) :
    ∀ (ls : List Layer) (j i : ℕ),
      (assignNamesGo total j ls).get? i =
        (ls.get? i).map (fun l =>
          if l.name = none then
            { l with name := some (autoLayerName total (j + i) l.type) }
          else l) := by
  intro ls
  induction ls with
  | nil => intro j i; simp [assignNamesGo]
  | cons l t ih =>
    intro j i
    cases i with
    | zero => simp [assignNamesGo]
    | succ k =>
      have e : j + (k + 1) = (j + 1) + k := by omega
      simp only [assignNamesGo, List.get?_cons_succ, e]
      exact ih (j + 1) k

/-- Claim C9: the constructor auto-assigns to each unnamed layer the name
`"{Hidden|Output}_{index}_{type}"`, where the label is `Output` exactly
for the last layer of the sequence, the index is the zero-based position,
and already-named layers are kept as-is. -/
theorem c9_auto_names (layers : List Layer) (rs : Option ℕ) (rule : String)
    (lr lm : ℚ) (darg : DropoutArg) (bs : ℕ) (ni : Option ℕ) (ns : ℕ)
    (fs : ℚ) (vset : Option (Mat × Mat)) (vsize : ℚ) (vb : Bool)
    (s : NNState)
    (h : baseInit layers rs rule lr lm darg bs ni ns fs vset vsize vb =
      Except.ok s) :
    s.layers.length = layers.length ∧
    ∀ i l, layers.get? i = some l →
      s.layers.get? i = some (if l.name = none then
        { l with name := some ((if i < layers.length - 1 then "Hidden" else "Output")
            ++ "_" ++ toString i ++ "_" ++ l.type) }
      else l) := by
  have hsl : s.layers = assignNames layers := by
    unfold baseInit at h
    cases hm : mkLrObj rule lm with
    | error e => rw [hm] at h; cases h
    | ok o => rw [hm] at h; cases h; rfl
  rw [hsl]
  constructor
  · exact assignNamesGo_length _ _ _
  · intro i l hl
    show (assignNamesGo layers.length 0 layers).get? i = _
    rw [assignNamesGo_get? _ _ _ _, hl]
    simp [autoLayerName]

/-- Witness for `c9_auto_names`: a two-layer network whose first layer is
unnamed and becomes `Hidden_0_Sigmoid`. -/
theorem c9_witness :
    demoTwoState.layers.length = demoTwoLayers.length ∧
    demoTwoState.layers.get? 0 = some
      (if demoSigLayer.name = none then
        { demoSigLayer with name := some ((if 0 < demoTwoLayers.length - 1
            then "Hidden" else "Output")
            ++ "_" ++ toString 0 ++ "_" ++ demoSigLayer.type) }
      else demoSigLayer) :=
  ⟨(c9_auto_names demoTwoLayers none "sgd" (1/100) (9/10)
      (DropoutArg.boolArg false) 1 (some 1) 50 (1/1000) none 0 false
      demoTwoState rfl).1,
   (c9_auto_names demoTwoLayers none "sgd" (1/100) (9/10)
      (DropoutArg.boolArg false) 1 (some 1) 50 (1/1000) none 0 false
      demoTwoState rfl).2 0 _ rfl⟩

lemma dropoutParams_mem_one :
    ∀ (ls : List Layer) (l : Layer), l ∈ ls → l.dropout = some 1 →
      dropoutParams ls = Except.error "float division by zero" := by
  intro ls
  induction ls with
  | nil => intro l h _; cases h
  | cons a t ih =>
    intro l hmem hd
    rcases List.mem_cons.mp hmem with he | ht
    · subst he
      simp [dropoutParams, hd]
    · cases ha : a.dropout with
      | none => simpa [dropoutParams, ha] using ih l ht hd
      | some d =>
        by_cases hz : (1 : ℚ) - d = 0
        · simp [dropoutParams, ha, hz]
        · simp [dropoutParams, ha, hz, ih l ht hd]

lemma dropoutParams_all_none :
    ∀ (ls : List Layer), (∀ l ∈ ls, l.dropout = none) →
      dropoutParams ls = Except.ok ([], []) := by
  intro ls
  induction ls with
  | nil => intro _; rfl
  | cons a t ih =>
    intro h
    have ha := h a (by simp)
    rw [show dropoutParams (a :: t) = dropoutParams t by simp [dropoutParams, ha]]
    exact ih (fun l hl => h l (by simp [hl]))

lemma dropoutParams_lt_one :
    ∀ (ls : List Layer), (∀ l ∈ ls, ∀ d, l.dropout = some d → d < 1) →
      ∃ ps ss, dropoutParams ls = Except.ok (ps, ss) := by
  intro ls
  induction ls with
  | nil => exact fun _ => ⟨[], [], rfl⟩
  | cons a t ih =>
    intro h
    obtain ⟨ps, ss, hps⟩ := ih (fun l hl d hd => h l (by simp [hl]) d hd)
    cases ha : a.dropout with
    | none => exact ⟨ps, ss, by simp [dropoutParams, ha, hps]⟩
    | some d =>
      have hd1 : d < 1 := h a (by simp) d ha
      have hz : ¬ ((1 : ℚ) - d = 0) := by
        intro hc
        rw [sub_eq_zero] at hc
        exact absurd hc.symm (ne_of_lt hd1)
      exact ⟨(a.name, 1 - d) :: ps, (a.name, 1 / (1 - d)) :: ss,
        by simp [dropoutParams, ha, hz, hps]⟩

/-- Claim C10: `_create_trainer` computes each dropout input scale as
`1.0 / (1.0 - dropout)` with no guard, so the division-by-zero branch is
reachable — through a layer with `dropout = 1.0`, and through the global
default when the dropout cost is active with ratio 1.0 — while every
dropout value strictly below 1.0 makes the computation well-defined. -/
theorem c10_dropout_division :
    (∀ (s : NNState) (b : Bool) (l : Layer), l ∈ s.layers →
        l.dropout = some 1 →
        createTrainer s b = Except.error "float division by zero") ∧
    (∀ (s : NNState) (b : Bool), s.dropout = 1 →
        s.cost = CostConfig.dropoutName → (∀ l ∈ s.layers, l.dropout = none) →
        createTrainer s b = Except.error "float division by zero") ∧
    (∀ (s : NNState) (b : Bool), s.dropout < 1 →
        (∀ l ∈ s.layers, ∀ d, l.dropout = some d → d < 1) →
        ∃ r, createTrainer s b = Except.ok r) := by
  refine ⟨?_, ?_, ?_⟩
  · intro s b l hl hd
    simp [createTrainer, dropoutParams_mem_one s.layers l hl hd]
  · intro s b hdrop hcost hnone
    simp [createTrainer, dropoutParams_all_none s.layers hnone, hcost, hdrop]
  · intro s b hdrop hlt
    obtain ⟨ps, ss, hps⟩ := dropoutParams_lt_one s.layers hlt
    have hz : ¬ ((1 : ℚ) - s.dropout = 0) := by
      intro hc
      rw [sub_eq_zero] at hc
      exact absurd hc.symm (ne_of_lt hdrop)
    cases hct : createTrainer s b with
    | ok r => exact ⟨r, rfl⟩
    | error e =>
      by_cases hcond : s.cost = CostConfig.dropoutName ∨ 0 < ps.length
      · simp [createTrainer, hps, hcond, hz] at hct
      · simp [createTrainer, hps, hcond] at hct

/-- Witness for `c10_dropout_division`: a layer with dropout 1.0 errors,
the dropout cost with global ratio 1.0 errors, and the default estimator
(all dropout below 1.0) succeeds. -/
theorem c10_witness :
    createTrainer c10s1 false = Except.error "float division by zero" ∧
    createTrainer c10s2 false = Except.error "float division by zero" ∧
    ∃ r, createTrainer demoFreshState false = Except.ok r :=
  ⟨c10_dropout_division.1 c10s1 false c10LayerD1 (by simp [c10s1]) rfl,
   c10_dropout_division.2.1 c10s2 false rfl rfl
     (by simp [c10s2, demoFreshState, demoLayers]),
   c10_dropout_division.2.2 demoFreshState false (by norm_num [demoFreshState])
     (by simp [demoFreshState, demoLayers])⟩

end SknnMlp
